import Mathlib

set_option maxRecDepth 20000

/-!
Shallow embedding of the retrieval-to-response pipeline of `src/app.py`
(a Flask automotive-mechanics assistant).  Machine strings are modelled by
Lean `String`, Python float similarity scores by `ℚ`, Python dicts for match
metadata by association lists, and the external services (Pinecone index,
embedding model, AWS Polly) by explicit parameters describing the outcome of
each external call.  Every definition is translated from the source file,
except the clearly marked specification-side restatements (priority tables
with first-match-wins lookup) that are proved equivalent to the source-side
dispatchers.
-/

/-! ### Python string primitives -/

/-- Characters removed by Python's `str.strip()` with no argument. -/
def isPySpace (c : Char) : Bool :=
  c == ' ' || c == '\t' || c == '\n' || c == '\r' || c == '\x0b' || c == '\x0c'

/-- Python `str.strip()`: drop whitespace from both ends. -/
def pyStrip (s : String) : String :=
  ⟨((s.data.dropWhile isPySpace).reverse.dropWhile isPySpace).reverse⟩

/-- Python `str.lower()` restricted to the alphabet used by this program:
ASCII letters plus the Spanish accented letters that appear in the source's
keyword lists and templates. -/
def pyLowerChar (c : Char) : Char :=
  if c == 'Á' then 'á' else if c == 'É' then 'é' else if c == 'Í' then 'í'
  else if c == 'Ó' then 'ó' else if c == 'Ú' then 'ú' else if c == 'Ü' then 'ü'
  else if c == 'Ñ' then 'ñ' else c.toLower

/-- Python `str.lower()` on a whole string. -/
def pyLower (s : String) : String := ⟨s.data.map pyLowerChar⟩

/-- `subAt pat l`: `pat` occurs at the very start of `l`. -/
def subAt : List Char → List Char → Bool
  | [], _ => true
  | _ :: _, [] => false
  | p :: ps, c :: cs => p == c && subAt ps cs

/-- `hasSub pat l`: `pat` occurs contiguously somewhere inside `l`
(Python's `pat in l` for strings). -/
def hasSub (pat : List Char) : List Char → Bool
  | [] => subAt pat []
  | c :: cs => subAt pat (c :: cs) || hasSub pat cs

/-- Python's substring test `pat in s`. -/
def strContains (s pat : String) : Bool := hasSub pat.data s.data

/-- Python's `any(word in s for word in kws)`. -/
def containsAny (s : String) (kws : List String) : Bool :=
  kws.any (fun k => strContains s k)

/-- Python `str.split('\n')` (on the character level); `[""]` on empty input. -/
def splitNl : List Char → List (List Char)
  | [] => [[]]
  | c :: cs =>
    if c == '\n' then [] :: splitNl cs
    else
      match splitNl cs with
      | [] => [[c]]
      | l :: ls => (c :: l) :: ls

/-- The lines of a string, as split by Python's `split('\n')`. -/
def pyLines (s : String) : List String := (splitNl s.data).map (fun cs => ⟨cs⟩)

/-! ### Data model: similarity-search matches -/

/-- A similarity-search match returned by the vector index: an identifier,
a cosine similarity score, and an optional metadata mapping (absent metadata
models a match object without a usable `metadata` attribute). -/
structure SimMatch where
  id : String
  score : ℚ
  metadata : Option (List (String × String))
deriving DecidableEq

/-- `'text' in match.metadata` followed by `match.metadata['text']`:
the retrieved passage text of a match, when present. -/
def matchText (m : SimMatch) : Option String :=
  m.metadata.bind (fun md => md.lookup "text")

/-! ### Technical-information extraction (`extract_technical_info`) -/

structure TechnicalData where
  procedures : List String
  specifications : List String
  warnings : List String
  tools : List String
deriving DecidableEq

def emptyTechnicalData : TechnicalData := ⟨[], [], [], []⟩

def procedure_keywords : List String := ["paso", "procedimiento", "instrucción", "método"]

def specification_keywords : List String :=
  ["especificación", "tolerancia", "medida", "valor", "psi", "rpm", "voltios"]

def warning_keywords : List String :=
  ["advertencia", "precaución", "peligro", "importante", "nota"]

def tool_keywords : List String := ["herramienta", "equipo", "llave", "medidor"]

/-- One iteration of the `for line in lines` loop of `extract_technical_info`:
strip the line, skip it when empty, else append it to the first of the four
category lists whose keyword set has a substring match on the lowercased line. -/
def classifyStep (td : TechnicalData) (rawLine : String) : TechnicalData :=
  let line := pyStrip rawLine
  if line = "" then td
  else if containsAny (pyLower line) procedure_keywords then
    { td with procedures := td.procedures ++ [line] }
  else if containsAny (pyLower line) specification_keywords then
    { td with specifications := td.specifications ++ [line] }
  else if containsAny (pyLower line) warning_keywords then
    { td with warnings := td.warnings ++ [line] }
  else if containsAny (pyLower line) tool_keywords then
    { td with tools := td.tools ++ [line] }
  else td

/-- `extract_technical_info(context)`: split the context on line breaks and
classify every line. -/
def extract_technical_info (context : String) : TechnicalData :=
  (pyLines context).foldl classifyStep emptyTechnicalData

/-! ### Category templates (`generate_*_response_with_context`) -/

/-- `for item in items: response += f"• \x7bitem\x7d\n"`. -/
def bulletLines (items : List String) : String :=
  items.foldl (fun acc s => acc ++ "• " ++ s ++ "\n") ""

/-- `for i, item in enumerate(items, n): response += f"\x7bi\x7d. \x7bitem\x7d\n"`. -/
def numberedLines : Nat → List String → String
  | _, [] => ""
  | n, s :: rest => toString n ++ ". " ++ s ++ "\n" ++ numberedLines (n + 1) rest

def generate_motor_response_with_context (tech_info : TechnicalData) (confidence : ℚ) : String :=
  let response := "**DIAGNÓSTICO DE MOTOR - Miguel Mecánico**\n\n"
  let response := if tech_info.specifications = [] then response else
    response ++ "**Especificaciones técnicas:**\n"
      ++ bulletLines (tech_info.specifications.take 3) ++ "\n"
  let response := if tech_info.procedures = [] then response else
    response ++ "**Procedimiento recomendado:**\n"
      ++ numberedLines 1 (tech_info.procedures.take 3) ++ "\n"
  let response := response ++ "**Verificaciones básicas del motor:**\n• Nivel de aceite (entre MIN y MAX en la varilla)\n• Temperatura del refrigerante (80-90°C operativo)\n• Presión de aceite (2-4 bar a 2000 RPM)\n• Estado de filtros (aire, combustible, aceite)\n\n**Síntomas de alerta:**\n• Luz de temperatura en tablero\n• Ruidos metálicos o golpeteo\n• Pérdida de potencia\n• Consumo excesivo de combustible"
  let response := if tech_info.warnings = [] then response else
    response ++ "\n\n**⚠️ PRECAUCIONES IMPORTANTES:**\n"
      ++ bulletLines (tech_info.warnings.take 2)
  response

def generate_brakes_response_with_context (tech_info : TechnicalData) (confidence : ℚ) : String :=
  let response := "**SISTEMA DE FRENOS - Miguel Mecánico**\n\n"
  let response := if tech_info.procedures = [] then response else
    response ++ "**Procedimiento técnico:**\n"
      ++ numberedLines 1 (tech_info.procedures.take 3) ++ "\n"
  let response := response ++ "**Inspección de frenos:**\n• Espesor de pastillas (mínimo 3mm)\n• Estado de discos (sin ranuras profundas)\n• Nivel de líquido de frenos (DOT 3 o DOT 4)\n• Flexibilidad de mangueras\n\n**Señales de mantenimiento:**\n• Chirrido al frenar (pastillas gastadas)\n• Vibración en pedal (discos deformados)\n• Pedal esponjoso (aire en sistema)\n• Distancia de frenado aumentada"
  let response := if tech_info.specifications = [] then response else
    response ++ "\n**Especificaciones:**\n"
      ++ bulletLines (tech_info.specifications.take 2)
  response

def generate_oil_response_with_context (tech_info : TechnicalData) (confidence : ℚ) : String :=
  let response := "**SISTEMA DE LUBRICACIÓN - Miguel Mecánico**\n\n"
  let response := if tech_info.specifications = [] then response else
    response ++ "**Especificaciones del aceite:**\n"
      ++ bulletLines (tech_info.specifications.take 3) ++ "\n"
  let response := response ++ "**Cambio de aceite paso a paso:**\n1. Motor tibio (no caliente) para mejor drenado\n2. Drenar aceite usado completamente\n3. Reemplazar filtro de aceite nuevo\n4. Rellenar con aceite especificado\n5. Verificar nivel después de 5 minutos\n\n**Intervalos de mantenimiento:**\n• Aceite sintético: 10,000-15,000 km\n• Aceite convencional: 5,000-7,500 km\n• Filtro: cada cambio de aceite\n• Verificar nivel: semanalmente"
  let response := if tech_info.procedures = [] then response else
    response ++ "\n**Procedimientos adicionales:**\n"
      ++ bulletLines (tech_info.procedures.take 2)
  response

def generate_electrical_response_with_context (tech_info : TechnicalData) (confidence : ℚ) : String :=
  let response := "**SISTEMA ELÉCTRICO - Miguel Mecánico**\n\n"
  let response := if tech_info.specifications = [] then response else
    response ++ "**Especificaciones eléctricas:**\n"
      ++ bulletLines (tech_info.specifications.take 3) ++ "\n"
  let response := response ++ "**Diagnóstico de batería y alternador:**\n• Voltaje batería en reposo: 12.6V\n• Voltaje con motor encendido: 13.8-14.4V\n• Densidad del electrolito: 1.265 g/cm³\n• Terminales limpios y apretados\n\n**Pruebas básicas:**\n1. Multímetro en terminales de batería\n2. Prueba de carga (arranque del motor)\n3. Verificar correa del alternador\n4. Revisar conexiones a masa"
  let response := if tech_info.procedures = [] then response else
    response ++ "\n**Procedimientos específicos:**\n"
      ++ bulletLines (tech_info.procedures.take 2)
  response

def generate_tires_response_with_context (tech_info : TechnicalData) (confidence : ℚ) : String :=
  let response := "**NEUMÁTICOS Y SUSPENSIÓN - Miguel Mecánico**\n\n"
  let response := if tech_info.specifications = [] then response else
    response ++ "**Especificaciones:**\n"
      ++ bulletLines (tech_info.specifications.take 3) ++ "\n"
  let response := response ++ "**Presiones recomendadas (verificar etiqueta del vehículo):**\n• Neumáticos delanteros: 32-35 PSI\n• Neumáticos traseros: 30-33 PSI\n• Rueda de repuesto: 60 PSI\n• Verificación: neumático frío\n\n**Inspección visual:**\n• Profundidad de banda (mínimo 1.6mm)\n• Desgaste uniforme en toda la banda\n• Grietas en flancos\n• Objetos clavados (clavos, tornillos)"
  response

def generate_transmission_response_with_context (tech_info : TechnicalData) (confidence : ℚ) : String :=
  let response := "**TRANSMISIÓN - Miguel Mecánico**\n\n"
  let response := if tech_info.procedures = [] then response else
    response ++ "**Procedimientos técnicos:**\n"
      ++ bulletLines (tech_info.procedures.take 3) ++ "\n"
  let response := response ++ "**Mantenimiento de transmisión:**\n• Manual: Aceite cada 60,000 km\n• Automática: Fluido cada 80,000 km\n• Embrague: Inspección cada 40,000 km\n• Verificar fugas regularmente\n\n**Síntomas de problemas:**\n• Dificultad para cambiar marchas\n• Ruidos al cambiar\n• Embrague que patina\n• Tirones al acelerar"
  let response := if tech_info.specifications = [] then response else
    response ++ "\n**Especificaciones:**\n"
      ++ bulletLines (tech_info.specifications.take 2)
  response

def generate_general_response_with_context (tech_info : TechnicalData) (query : String)
    (confidence : ℚ) : String :=
  let response := "**CONSULTA TÉCNICA - Miguel Mecánico**\n\n"
  let response := if tech_info.procedures = [] then response else
    response ++ "**Información técnica relevante:**\n"
      ++ bulletLines (tech_info.procedures.take 3) ++ "\n"
  let response := response ++ "**Diagnóstico general recomendado:**\n1. Inspección visual completa\n2. Verificación de códigos de error (OBD)\n3. Pruebas específicas según síntomas\n4. Consulta de manual técnico del vehículo\n\n**Herramientas básicas necesarias:**\n• Multímetro digital\n• Scanner OBD2\n• Juego de llaves métricas\n• Manómetros de presión"
  let response := if tech_info.specifications = [] then response else
    response ++ "\n**Datos técnicos:**\n"
      ++ bulletLines (tech_info.specifications.take 2)
  let response := if confidence < mkRat 8 10 then
    response ++ "\n\n⚠️ **Recomendación:** Para un diagnóstico más preciso, es recomendable una inspección física del vehículo."
    else response
  response

/-! ### Query-category dispatch (`generate_mechanical_response`) -/

def motor_query_keywords : List String :=
  ["motor", "encender", "arrancar", "temperatura", "sobrecalentamiento", "rpm"]

def brakes_query_keywords : List String := ["frenos", "frenar", "pastillas", "disco", "pedal"]

def oil_query_keywords : List String := ["aceite", "lubricante", "cambio", "viscosidad", "filtro"]

def electrical_query_keywords : List String :=
  ["batería", "eléctrico", "corriente", "alternador", "voltaje"]

def tires_query_keywords : List String :=
  ["llantas", "neumáticos", "presión", "inflado", "desgaste"]

def transmission_query_keywords : List String :=
  ["transmisión", "caja", "cambios", "embrague", "automática"]

/-- `generate_mechanical_response(query, context, confidence_score)`:
extract technical info from the context, then dispatch on the first matching
query-keyword category (engine, brakes, lubrication, electrical, tires,
transmission), falling through to the general template. -/
def generate_mechanical_response (query context : String) (confidence_score : ℚ) : String :=
  let query_lower := pyLower query
  let key_info := extract_technical_info context
  if containsAny query_lower motor_query_keywords then
    generate_motor_response_with_context key_info confidence_score
  else if containsAny query_lower brakes_query_keywords then
    generate_brakes_response_with_context key_info confidence_score
  else if containsAny query_lower oil_query_keywords then
    generate_oil_response_with_context key_info confidence_score
  else if containsAny query_lower electrical_query_keywords then
    generate_electrical_response_with_context key_info confidence_score
  else if containsAny query_lower tires_query_keywords then
    generate_tires_response_with_context key_info confidence_score
  else if containsAny query_lower transmission_query_keywords then
    generate_transmission_response_with_context key_info confidence_score
  else
    generate_general_response_with_context key_info query confidence_score

/-! ### Low-confidence and no-match responses, `generate_response` -/

def low_confidence_query_keywords : List String := ["motor", "arranque", "temperatura"]

/-- The engine-specific low-confidence template (fixed string). -/
def lowConfidenceMotorResponse : String :=
  "Basándome en mi experiencia como mecánico, para problemas de motor necesito más información específica:\n\n**Síntomas comunes a revisar:**\n- ¿El motor enciende pero no mantiene el ralentí?\n- ¿Hay humo de algún color específico?\n- ¿La temperatura sube anormalmente?\n- ¿Escuchas ruidos extraños?\n\n**Primeras verificaciones:**\n- Nivel de aceite y refrigerante\n- Estado de la batería (12.6V en reposo)\n- Conexiones eléctricas limpias\n- Filtros de aire y combustible\n\n¿Podrías describir exactamente qué síntomas presenta el vehículo?"

/-- The general low-confidence template (fixed string). -/
def lowConfidenceGeneralResponse : String :=
  "Como mecánico especializado, necesito más detalles para darte un diagnóstico preciso.\n\n**Por favor comparte:**\n- Marca, modelo y año del vehículo\n- Síntomas específicos que observas\n- Cuándo ocurre el problema\n- Sonidos, olores o señales visuales\n- Códigos de error (si los hay)\n\nMientras tanto, verifica:\n- Niveles de fluidos (aceite, refrigerante, frenos)\n- Estado de la batería\n- Presión de neumáticos\n\n¿Qué problema específico tiene tu vehículo?"

/-- `generate_low_confidence_response(query)`: one of two fixed templates,
chosen by engine-related keywords in the lowercased query. -/
def generate_low_confidence_response (query : String) : String :=
  if containsAny (pyLower query) low_confidence_query_keywords then
    lowConfidenceMotorResponse
  else
    lowConfidenceGeneralResponse

/-- The fixed template returned by `generate_response` when the match set is
empty or absent. -/
def insufficientInfoResponse : String :=
  "No encontré información específica sobre eso en mi base de conocimientos mecánicos. \n\nComo mecánico especializado, te recomiendo:\n1. Proporciona más detalles sobre el problema (sonidos, síntomas, modelo del vehículo)\n2. Indica cuándo comenzó el problema\n3. Menciona si hay códigos de error en el tablero\n\n¿Podrías darme más información para ayudarte mejor?"

/-- The fixed apology returned by `generate_response`'s outer `except` block. -/
def technicalErrorResponse : String :=
  "Lo siento, hubo un error técnico procesando tu consulta mecánica. \n\nPor favor, intenta reformular tu pregunta o contacta directamente con un técnico especializado."

/-- The confidence gate of `generate_response`:
`match.score > 0.7`, as a Boolean. -/
def passesGate (m : SimMatch) : Bool := decide (m.score > mkRat 7 10)

/-- `generate_response(query, context_matches)`.  `context_matches` is the
(ordered) list of matches of the Pinecone query result; the absent-result case
is handled by the caller (`chat`) and by the empty-list branch here. -/
def generate_response (query : String) (context_matches : List SimMatch) : String :=
  if context_matches.isEmpty then insufficientInfoResponse
  else
    match context_matches.filter passesGate with
    | [] => generate_low_confidence_response query
    | m :: rest =>
      let context_parts := ((m :: rest).take 3).filterMap matchText
      let context := String.intercalate "\n" context_parts
      generate_mechanical_response query context m.score

/-! ### `chat`: greeting gate, Pinecone query, no-match fallback -/

def greeting_keywords : List String :=
  ["hola", "buenos días", "buenas tardes", "saludos", "iniciar", "empezar"]

/-- The fixed greeting template of `chat`. -/
def greetingResponse : String :=
  "¡Hola! Soy Miguel, tu mecánico especializado en vehículos. Tengo acceso a una amplia base de conocimientos técnicos y manuales de mecánica automotriz.\n\n**Puedo ayudarte con:**\n• Diagnóstico de problemas del motor\n• Mantenimiento preventivo y correctivo\n• Sistema de frenos y suspensión\n• Diagnóstico eléctrico y electrónico\n• Transmisión manual y automática\n• Sistema de refrigeración y lubricación\n• Neumáticos y alineación\n\n**Para un mejor diagnóstico, comparte:**\n- Marca, modelo y año del vehículo\n- Síntomas específicos que observas\n- Códigos de error (si los tienes)\n\n¿Qué problema tiene tu vehículo?"

/-- The fixed template returned by `chat` when the Pinecone query yields no
usable results. -/
def chatNoDataResponse : String :=
  "Como mecánico, no encuentro información específica sobre eso en mi base de conocimientos actual.\n\n**Te puedo ayudar de manera general:**\n- Describe el problema con más detalle\n- ¿Qué síntomas específicos observas?\n- ¿Cuándo comenzó el problema?\n- ¿Hay sonidos, olores o luces de advertencia?\n\n**Mientras tanto, verifica:**\n• Niveles de fluidos (aceite, refrigerante, frenos)\n• Estado de la batería (12.6V en reposo)\n• Presión de neumáticos según especificación\n• Códigos de error en el tablero\n\n¿Podrías darme más información específica del problema?"

/-- `query_pinecone(query, top_k)`, with the external services made explicit:
`indexReady` is whether the global `index` handle is set, `queryEmbedding` is
what `get_embedding` returned (`none` when the model is missing or the call
failed; note Python also treats an empty vector as falsy), and `searchResult`
is the outcome of the remote `index.query` call (`none` when it raised). -/
def query_pinecone (indexReady : Bool) (queryEmbedding : Option (List ℚ))
    (searchResult : Option (List SimMatch)) : Option (List SimMatch) :=
  if indexReady = false then none
  else
    match queryEmbedding with
    | none => none
    | some v => if v = [] then none else searchResult

/-- Result of the `chat` endpoint: an HTTP 400 validation error or a JSON
response string (the `end_call` field is constantly `False`). -/
inductive ChatResult where
  | badRequest (msg : String)
  | ok (response : String)
deriving DecidableEq

/-- The `chat` route: validation, greeting shortcut, Pinecone-backed answer,
no-data fallback.  External-call outcomes are passed as parameters. -/
def chat (message : String) (indexReady : Bool) (queryEmbedding : Option (List ℚ))
    (searchResult : Option (List SimMatch)) : ChatResult :=
  if message = "" then .badRequest "No message provided"
  else if containsAny (pyLower message) greeting_keywords then .ok greetingResponse
  else
    match query_pinecone indexReady queryEmbedding searchResult with
    | some ms => if ms.length > 0 then .ok (generate_response message ms) else .ok chatNoDataResponse
    | none => .ok chatNoDataResponse

/-! ### `speak_text`: the three-tier Polly fallback chain -/

/-- Outcome of one synthesis-tier attempt: success with (base64) audio
content, an AWS service error (`BotoCoreError`/`ClientError`), or any other
exception. -/
inductive TierOutcome where
  | success (audio : String)
  | serviceError (msg : String)
  | otherError (msg : String)
deriving DecidableEq

/-- The JSON reply of `/api/speak` (the `audioUrl` field is the data-URL
wrapping of `audioContent`). -/
structure SpeakReply where
  audioContent : Option String
  audioUrl : Option String
  useBrowserTTS : Bool
  text : Option String
  engine : Option String
  error : Option String
deriving DecidableEq

/-- Successful synthesis reply, tagged with the engine that produced it. -/
def audioReply (audio engine : String) : SpeakReply :=
  { audioContent := some audio
    audioUrl := some ("data:audio/mp3;base64," ++ audio)
    useBrowserTTS := false
    text := none
    engine := some engine
    error := none }

/-- Browser-TTS (client-side) fallback reply carrying the original text. -/
def browserFallbackReply (text : String) (error : Option String) : SpeakReply :=
  { audioContent := none
    audioUrl := none
    useBrowserTTS := true
    text := some text
    engine := none
    error := error }

/-- Result of the `speak_text` endpoint. -/
inductive SpeakResult where
  | badRequest (msg : String)
  | ok (reply : SpeakReply)
deriving DecidableEq

/-- One run of `speak_text`: the reply plus the ordered list of synthesis
tiers actually attempted (1 = generative, 2 = neural, 3 = standard). -/
structure SpeakRun where
  result : SpeakResult
  attempts : List Nat
deriving DecidableEq

/-- `speak_text`, with the Polly client abstracted into one `TierOutcome` per
tier.  Tier 1 (generative SSML) and tier 2 (neural SSML) catch only
`BotoCoreError`/`ClientError`; any other exception there escapes to the
function-level `except Exception` handler, which replies with the
browser-fallback shape carrying that error.  Tier 3 (standard, plain text)
catches every exception and replies with the browser fallback carrying the
tier-2 (`neural_error`) message. -/
def speak_text (hasCredentials : Bool) (text : String)
    (tier1 tier2 tier3 : TierOutcome) : SpeakRun :=
  if text = "" then ⟨.badRequest "No text provided", []⟩
  else if hasCredentials = false then ⟨.ok (browserFallbackReply text none), []⟩
  else
    match tier1 with
    | .success audio => ⟨.ok (audioReply audio "generative"), [1]⟩
    | .otherError e => ⟨.ok (browserFallbackReply text (some e)), [1]⟩
    | .serviceError _ =>
      match tier2 with
      | .success audio => ⟨.ok (audioReply audio "neural"), [1, 2]⟩
      | .otherError e => ⟨.ok (browserFallbackReply text (some e)), [1, 2]⟩
      | .serviceError neural_error =>
        match tier3 with
        | .success audio => ⟨.ok (audioReply audio "standard"), [1, 2, 3]⟩
        | .serviceError _ => ⟨.ok (browserFallbackReply text (some neural_error)), [1, 2, 3]⟩
        | .otherError _ => ⟨.ok (browserFallbackReply text (some neural_error)), [1, 2, 3]⟩

/-! ### Specification-side restatements

These definitions follow the spec's wording ("ordered list of (predicate,
handler) pairs evaluated in fixed priority order; first match wins") and are
proved equivalent to the source-side dispatchers above. -/

inductive MechCategory where
  | engine | brakes | lubrication | electrical | tires | transmission | general
deriving DecidableEq

/-- The fixed priority list of the six keyword categories, in spec order
engine > brakes > lubrication > electrical > tires > transmission. -/
def mechPriorityTable : List (MechCategory × List String) :=
  [(.engine, motor_query_keywords),
   (.brakes, brakes_query_keywords),
   (.lubrication, oil_query_keywords),
   (.electrical, electrical_query_keywords),
   (.tires, tires_query_keywords),
   (.transmission, transmission_query_keywords)]

/-- First-category-wins selection over the priority table; queries matching
no category fall through to `general`. -/
def firstCategory (query : String) : MechCategory :=
  ((mechPriorityTable.find? (fun p => containsAny (pyLower query) p.2)).map Prod.fst).getD .general

/-- The template belonging to a category. -/
def dispatchCategory (c : MechCategory) (ti : TechnicalData) (query : String) (s : ℚ) : String :=
  match c with
  | .engine => generate_motor_response_with_context ti s
  | .brakes => generate_brakes_response_with_context ti s
  | .lubrication => generate_oil_response_with_context ti s
  | .electrical => generate_electrical_response_with_context ti s
  | .tires => generate_tires_response_with_context ti s
  | .transmission => generate_transmission_response_with_context ti s
  | .general => generate_general_response_with_context ti query s

inductive LineCategory where
  | procC | specC | warnC | toolC
deriving DecidableEq

/-- The fixed priority list of the four line-classification keyword sets, in
spec order procedure > specification > warning > tool. -/
def lineCategoryTable : List (LineCategory × List String) :=
  [(.procC, procedure_keywords),
   (.specC, specification_keywords),
   (.warnC, warning_keywords),
   (.toolC, tool_keywords)]

/-- Spec-side classification of one raw line: trim; drop empty lines; assign
the trimmed line to the first category whose keyword set has a substring
match against its lowercasing; `none` when no set matches. -/
def classifyLineSpec (rawLine : String) : Option (LineCategory × String) :=
  let line := pyStrip rawLine
  if line = "" then none
  else (lineCategoryTable.find? (fun p => containsAny (pyLower line) p.2)).map
    (fun p => (p.1, line))

/-- The (trimmed, original-case) lines of `ls` assigned to category `c`. -/
def selectedLines (c : LineCategory) (ls : List String) : List String :=
  ls.filterMap (fun r =>
    match classifyLineSpec r with
    | some (c', l) => if c' = c then some l else none
    | none => none)

/-! ### Helper lemmas -/

theorem classifyStep_foldl (ls : List String) (td : TechnicalData) :
    ls.foldl classifyStep td =
      ⟨td.procedures ++ selectedLines .procC ls,
       td.specifications ++ selectedLines .specC ls,
       td.warnings ++ selectedLines .warnC ls,
       td.tools ++ selectedLines .toolC ls⟩ := by
  induction ls generalizing td with
  | nil => simp [selectedLines]
  | cons r ls ih =>
    rw [List.foldl_cons, ih]
    by_cases h0 : pyStrip r = ""
    · simp [selectedLines, classifyStep, classifyLineSpec, h0]
    · by_cases h1 : containsAny (pyLower (pyStrip r)) procedure_keywords
      · simp [selectedLines, classifyStep, classifyLineSpec, lineCategoryTable, h0, h1,
          List.find?]
      · by_cases h2 : containsAny (pyLower (pyStrip r)) specification_keywords
        · simp [selectedLines, classifyStep, classifyLineSpec, lineCategoryTable, h0, h1, h2,
            List.find?]
        · by_cases h3 : containsAny (pyLower (pyStrip r)) warning_keywords
          · simp [selectedLines, classifyStep, classifyLineSpec, lineCategoryTable, h0, h1, h2,
              h3, List.find?]
          · by_cases h4 : containsAny (pyLower (pyStrip r)) tool_keywords
            · simp [selectedLines, classifyStep, classifyLineSpec, lineCategoryTable, h0, h1,
                h2, h3, h4, List.find?]
            · simp [selectedLines, classifyStep, classifyLineSpec, lineCategoryTable, h0, h1,
                h2, h3, h4, List.find?]

theorem extract_eq_selected (ctx : String) :
    extract_technical_info ctx =
      ⟨selectedLines .procC (pyLines ctx), selectedLines .specC (pyLines ctx),
       selectedLines .warnC (pyLines ctx), selectedLines .toolC (pyLines ctx)⟩ := by
  rw [extract_technical_info, classifyStep_foldl]
  rfl

theorem mechanical_eq_dispatch (q ctx : String) (s : ℚ) :
    generate_mechanical_response q ctx s =
      dispatchCategory (firstCategory q) (extract_technical_info ctx) q s := by
  by_cases h1 : containsAny (pyLower q) motor_query_keywords
  · simp [generate_mechanical_response, firstCategory, mechPriorityTable, dispatchCategory,
      List.find?, h1]
  · by_cases h2 : containsAny (pyLower q) brakes_query_keywords
    · simp [generate_mechanical_response, firstCategory, mechPriorityTable, dispatchCategory,
        List.find?, h1, h2]
    · by_cases h3 : containsAny (pyLower q) oil_query_keywords
      · simp [generate_mechanical_response, firstCategory, mechPriorityTable, dispatchCategory,
          List.find?, h1, h2, h3]
      · by_cases h4 : containsAny (pyLower q) electrical_query_keywords
        · simp [generate_mechanical_response, firstCategory, mechPriorityTable,
            dispatchCategory, List.find?, h1, h2, h3, h4]
        · by_cases h5 : containsAny (pyLower q) tires_query_keywords
          · simp [generate_mechanical_response, firstCategory, mechPriorityTable,
              dispatchCategory, List.find?, h1, h2, h3, h4, h5]
          · by_cases h6 : containsAny (pyLower q) transmission_query_keywords
            · simp [generate_mechanical_response, firstCategory, mechPriorityTable,
                dispatchCategory, List.find?, h1, h2, h3, h4, h5, h6]
            · simp [generate_mechanical_response, firstCategory, mechPriorityTable,
                dispatchCategory, List.find?, h1, h2, h3, h4, h5, h6]

theorem gate_filter_nil (ms : List SimMatch) (h : ∀ m ∈ ms, m.score ≤ mkRat 7 10) :
    ms.filter passesGate = [] := by
  rw [List.filter_eq_nil_iff]
  intro m hm
  simp only [passesGate, decide_eq_true_eq]
  exact not_lt.mpr (h m hm)

theorem generate_response_lowconf (q : String) (ms : List SimMatch)
    (h1 : ms ≠ []) (h2 : ∀ m ∈ ms, m.score ≤ mkRat 7 10) :
    generate_response q ms = generate_low_confidence_response q := by
  match ms with
  | m :: rest =>
    have hf := gate_filter_nil (m :: rest) h2
    simp [generate_response, hf]

theorem lowconf_two_templates (q : String) :
    generate_low_confidence_response q = lowConfidenceMotorResponse ∨
      generate_low_confidence_response q = lowConfidenceGeneralResponse := by
  by_cases h : containsAny (pyLower q) low_confidence_query_keywords
  · exact Or.inl (by simp [generate_low_confidence_response, h])
  · exact Or.inr (by simp [generate_low_confidence_response, h])

/-! ### Claim theorems -/

/-- C1.  Confidence-gate invariant of `generate_response`: whenever no match
in the match set has score strictly above 0.70, the response is one of the
three fixed templates (no-match, low-confidence engine, low-confidence
general), none of which interpolates retrieved passage content; hence no
execution path yields a category/general template without at least one match
passing the 0.70 gate. -/
theorem confidence_gate_invariant (q : String) (ms : List SimMatch)
    (h : ∀ m ∈ ms, ¬ m.score > mkRat 7 10) :
    generate_response q ms = insufficientInfoResponse ∨
      generate_response q ms = lowConfidenceMotorResponse ∨
      generate_response q ms = lowConfidenceGeneralResponse := by
  match ms with
  | [] => exact Or.inl (by simp [generate_response])
  | m :: rest =>
    have hle : ∀ x ∈ m :: rest, x.score ≤ mkRat 7 10 := fun x hx => not_lt.mp (h x hx)
    rw [generate_response_lowconf q (m :: rest) (by simp) hle]
    exact Or.inr (lowconf_two_templates q)

/-- Witness for C1 at a concrete input: the empty match set trivially fails
the gate and produces the fixed no-match template. -/
theorem confidence_gate_invariant_witness :
    generate_response "ruido raro" [] = insufficientInfoResponse ∨
      generate_response "ruido raro" [] = lowConfidenceMotorResponse ∨
      generate_response "ruido raro" [] = lowConfidenceGeneralResponse :=
  confidence_gate_invariant "ruido raro" [] (by simp)

/-- C2.  `generate_mechanical_response` selects exactly one template by
first-category-wins keyword membership over the lowercased query, in the
fixed priority order engine > brakes > lubrication > electrical > tires >
transmission (`mechPriorityTable`, scanned by `List.find?`), falling through
to the general template; in particular a query containing both "motor" and
"frenos" resolves to the engine template. -/
theorem mechanical_first_category_wins :
    (∀ (q ctx : String) (s : ℚ),
      generate_mechanical_response q ctx s =
        dispatchCategory (firstCategory q) (extract_technical_info ctx) q s) ∧
    firstCategory "fallan el motor y los frenos" = .engine ∧
    generate_mechanical_response "fallan el motor y los frenos" "" (mkRat 9 10) =
      generate_motor_response_with_context (extract_technical_info "") (mkRat 9 10) :=
  ⟨mechanical_eq_dispatch, by decide, by decide⟩

/-- C3.  For every non-empty match set whose scores are all ≤ 0.70,
`generate_response` dispatches to the low-confidence responder, whose output
is a function of the query text alone: two runs with the same query and
different such match sets yield identical responses, and the response is one
of the two fixed low-confidence templates (which interpolate nothing from
match metadata). -/
theorem lowconf_depends_only_on_query (q : String) (ms ms' : List SimMatch)
    (h1 : ms ≠ []) (h2 : ∀ m ∈ ms, m.score ≤ mkRat 7 10)
    (h1' : ms' ≠ []) (h2' : ∀ m ∈ ms', m.score ≤ mkRat 7 10) :
    generate_response q ms = generate_low_confidence_response q ∧
    generate_response q ms = generate_response q ms' ∧
    (generate_low_confidence_response q = lowConfidenceMotorResponse ∨
      generate_low_confidence_response q = lowConfidenceGeneralResponse) := by
  have a := generate_response_lowconf q ms h1 h2
  have b := generate_response_lowconf q ms' h1' h2'
  exact ⟨a, a.trans b.symm, lowconf_two_templates q⟩

/-- Witness for C3 at concrete inputs: a 0.50-score match set and a
0.70-score match set (the threshold itself does not pass the strict gate)
give the same fixed low-confidence response. -/
theorem lowconf_depends_only_on_query_witness :
    generate_response "revisión general" [⟨"a", mkRat 1 2, none⟩] =
      generate_low_confidence_response "revisión general" ∧
    generate_response "revisión general" [⟨"a", mkRat 1 2, none⟩] =
      generate_response "revisión general" [⟨"b", mkRat 7 10, some [("text", "Paso 1: algo")]⟩] ∧
    (generate_low_confidence_response "revisión general" = lowConfidenceMotorResponse ∨
      generate_low_confidence_response "revisión general" = lowConfidenceGeneralResponse) :=
  lowconf_depends_only_on_query "revisión general" [⟨"a", mkRat 1 2, none⟩]
    [⟨"b", mkRat 7 10, some [("text", "Paso 1: algo")]⟩]
    (by decide) (by decide) (by decide) (by decide)

/-- C4.  `extract_technical_info` splits on line breaks and assigns each
trimmed non-empty line (original case kept) to the first of the four
categories — procedures, specifications, warnings, tools, in that order —
whose keyword set has a substring match on the lowercased line, discarding
lines matching none; empty input yields four empty sequences; and an input
with exactly one line per category keyword set yields exactly one item per
output sequence. -/
theorem extract_classification :
    extract_technical_info "" = emptyTechnicalData ∧
    (∀ ctx : String,
      extract_technical_info ctx =
        ⟨selectedLines .procC (pyLines ctx), selectedLines .specC (pyLines ctx),
         selectedLines .warnC (pyLines ctx), selectedLines .toolC (pyLines ctx)⟩) ∧
    extract_technical_info
        "Paso 1: drenar el aceite\nValor recomendado: 32 psi\nPrecaución: superficie caliente\nUsar llave dinamométrica" =
      ⟨["Paso 1: drenar el aceite"], ["Valor recomendado: 32 psi"],
       ["Precaución: superficie caliente"], ["Usar llave dinamométrica"]⟩ :=
  ⟨by decide, extract_eq_selected, by decide⟩

theorem motor_template_profile (t : TechnicalData) (c : ℚ) :
    generate_motor_response_with_context t c =
      generate_motor_response_with_context
        ⟨t.procedures.take 3, t.specifications.take 3, t.warnings.take 2, []⟩ c := by
  unfold generate_motor_response_with_context
  by_cases hs : t.specifications = [] <;> by_cases hp : t.procedures = [] <;>
    by_cases hw : t.warnings = [] <;>
    simp [hs, hp, hw, List.take_take, List.take_eq_nil_iff]

theorem brakes_template_profile (t : TechnicalData) (c : ℚ) :
    generate_brakes_response_with_context t c =
      generate_brakes_response_with_context
        ⟨t.procedures.take 3, t.specifications.take 2, [], []⟩ c := by
  unfold generate_brakes_response_with_context
  by_cases hs : t.specifications = [] <;> by_cases hp : t.procedures = [] <;>
    simp [hs, hp, List.take_take, List.take_eq_nil_iff]

theorem oil_template_profile (t : TechnicalData) (c : ℚ) :
    generate_oil_response_with_context t c =
      generate_oil_response_with_context
        ⟨t.procedures.take 2, t.specifications.take 3, [], []⟩ c := by
  unfold generate_oil_response_with_context
  by_cases hs : t.specifications = [] <;> by_cases hp : t.procedures = [] <;>
    simp [hs, hp, List.take_take, List.take_eq_nil_iff]

theorem electrical_template_profile (t : TechnicalData) (c : ℚ) :
    generate_electrical_response_with_context t c =
      generate_electrical_response_with_context
        ⟨t.procedures.take 2, t.specifications.take 3, [], []⟩ c := by
  unfold generate_electrical_response_with_context
  by_cases hs : t.specifications = [] <;> by_cases hp : t.procedures = [] <;>
    simp [hs, hp, List.take_take, List.take_eq_nil_iff]

theorem tires_template_profile (t : TechnicalData) (c : ℚ) :
    generate_tires_response_with_context t c =
      generate_tires_response_with_context ⟨[], t.specifications.take 3, [], []⟩ c := by
  unfold generate_tires_response_with_context
  by_cases hs : t.specifications = [] <;>
    simp [hs, List.take_take, List.take_eq_nil_iff]

theorem transmission_template_profile (t : TechnicalData) (c : ℚ) :
    generate_transmission_response_with_context t c =
      generate_transmission_response_with_context
        ⟨t.procedures.take 3, t.specifications.take 2, [], []⟩ c := by
  unfold generate_transmission_response_with_context
  by_cases hs : t.specifications = [] <;> by_cases hp : t.procedures = [] <;>
    simp [hs, hp, List.take_take, List.take_eq_nil_iff]

theorem general_template_profile (t : TechnicalData) (q : String) (c : ℚ) :
    generate_general_response_with_context t q c =
      generate_general_response_with_context
        ⟨t.procedures.take 3, t.specifications.take 2, [], []⟩ q c := by
  unfold generate_general_response_with_context
  by_cases hs : t.specifications = [] <;> by_cases hp : t.procedures = [] <;>
    simp [hs, hp, List.take_take, List.take_eq_nil_iff]

/-- C5 (amended).  Interpolation profile of the seven templates: the engine
template interpolates up to 3 specifications, up to 3 procedures and up to 2
warnings; brakes up to 3 procedures and up to 2 specifications; lubrication
up to 3 specifications and up to 2 procedures; electrical up to 3
specifications and up to 2 procedures; tires up to 3 specifications only;
transmission up to 3 procedures and up to 2 specifications; general up to 3
procedures and up to 2 specifications.  Each interpolated list is omitted
entirely when its source is empty, warnings are interpolated by the engine
template only, and tools by none; concrete runs show the block headers
appearing exactly when the corresponding list is non-empty and the brakes
specification list truncating at 2. -/
theorem template_interpolation_profile :
    (∀ (t : TechnicalData) (c : ℚ),
      generate_motor_response_with_context t c =
        generate_motor_response_with_context
          ⟨t.procedures.take 3, t.specifications.take 3, t.warnings.take 2, []⟩ c) ∧
    (∀ (t : TechnicalData) (c : ℚ),
      generate_brakes_response_with_context t c =
        generate_brakes_response_with_context
          ⟨t.procedures.take 3, t.specifications.take 2, [], []⟩ c) ∧
    (∀ (t : TechnicalData) (c : ℚ),
      generate_oil_response_with_context t c =
        generate_oil_response_with_context
          ⟨t.procedures.take 2, t.specifications.take 3, [], []⟩ c) ∧
    (∀ (t : TechnicalData) (c : ℚ),
      generate_electrical_response_with_context t c =
        generate_electrical_response_with_context
          ⟨t.procedures.take 2, t.specifications.take 3, [], []⟩ c) ∧
    (∀ (t : TechnicalData) (c : ℚ),
      generate_tires_response_with_context t c =
        generate_tires_response_with_context ⟨[], t.specifications.take 3, [], []⟩ c) ∧
    (∀ (t : TechnicalData) (c : ℚ),
      generate_transmission_response_with_context t c =
        generate_transmission_response_with_context
          ⟨t.procedures.take 3, t.specifications.take 2, [], []⟩ c) ∧
    (∀ (t : TechnicalData) (q : String) (c : ℚ),
      generate_general_response_with_context t q c =
        generate_general_response_with_context
          ⟨t.procedures.take 3, t.specifications.take 2, [], []⟩ q c) ∧
    (strContains
      (generate_motor_response_with_context
        ⟨["Paso uno"], ["valor 32 psi"], ["nota: usar guantes"], []⟩ (mkRat 9 10))
      "**Especificaciones técnicas:**\n• valor 32 psi" = true ∧
     strContains
      (generate_motor_response_with_context
        ⟨["Paso uno"], ["valor 32 psi"], ["nota: usar guantes"], []⟩ (mkRat 9 10))
      "**Procedimiento recomendado:**\n1. Paso uno" = true ∧
     strContains
      (generate_motor_response_with_context
        ⟨["Paso uno"], ["valor 32 psi"], ["nota: usar guantes"], []⟩ (mkRat 9 10))
      "**⚠️ PRECAUCIONES IMPORTANTES:**\n• nota: usar guantes" = true) ∧
    (strContains (generate_motor_response_with_context emptyTechnicalData (mkRat 9 10))
      "Especificaciones técnicas" = false ∧
     strContains (generate_motor_response_with_context emptyTechnicalData (mkRat 9 10))
      "Procedimiento recomendado" = false ∧
     strContains (generate_motor_response_with_context emptyTechnicalData (mkRat 9 10))
      "PRECAUCIONES" = false) ∧
    (strContains
      (generate_brakes_response_with_context
        ⟨[], ["medida uno", "medida dos", "medida tres"], [], []⟩ (mkRat 9 10))
      "• medida dos" = true ∧
     strContains
      (generate_brakes_response_with_context
        ⟨[], ["medida uno", "medida dos", "medida tres"], [], []⟩ (mkRat 9 10))
      "medida tres" = false ∧
     strContains (generate_brakes_response_with_context emptyTechnicalData (mkRat 9 10))
      "Especificaciones" = false) ∧
    (strContains
      (generate_tires_response_with_context ⟨[], ["valor 32 psi"], [], []⟩ (mkRat 9 10))
      "**Especificaciones:**\n• valor 32 psi" = true ∧
     strContains (generate_tires_response_with_context emptyTechnicalData (mkRat 9 10))
      "Especificaciones:" = false) :=
  ⟨motor_template_profile, brakes_template_profile, oil_template_profile,
   electrical_template_profile, tires_template_profile, transmission_template_profile,
   general_template_profile,
   ⟨by decide, by decide, by decide⟩, ⟨by decide, by decide, by decide⟩,
   ⟨by decide, by decide, by decide⟩, ⟨by decide, by decide⟩⟩

/-- Counterexample to C5 as stated: the tires template does not interpolate
procedures at all — a non-empty procedures list leaves the rendered response
unchanged and its entries never appear in the output. -/
theorem template_interpolation_counterexample :
    generate_tires_response_with_context ⟨["Paso uno: purgar"], [], [], []⟩ (mkRat 9 10) =
      generate_tires_response_with_context emptyTechnicalData (mkRat 9 10) ∧
    strContains
      (generate_tires_response_with_context ⟨["Paso uno: purgar"], [], [], []⟩ (mkRat 9 10))
      "Paso uno: purgar" = false := by
  exact ⟨by decide, by decide⟩

/-- C6.  For every non-empty, non-greeting message whose Pinecone lookup is
unavailable or yields no matches, `chat` returns the fixed
insufficient-information template — which asks for the observed symptoms,
when the problem began, and dashboard error codes — instead of failing; and
an uninitialized index or missing embedding indeed makes `query_pinecone`
return no result. -/
theorem chat_no_data_template (message : String) (indexReady : Bool)
    (emb : Option (List ℚ)) (searchResult : Option (List SimMatch))
    (hmsg : message ≠ "")
    (hgreet : containsAny (pyLower message) greeting_keywords = false)
    (hnone : query_pinecone indexReady emb searchResult = none ∨
      query_pinecone indexReady emb searchResult = some []) :
    chat message indexReady emb searchResult = .ok chatNoDataResponse ∧
    strContains chatNoDataResponse "- ¿Qué síntomas específicos observas?" = true ∧
    strContains chatNoDataResponse "- ¿Cuándo comenzó el problema?" = true ∧
    strContains chatNoDataResponse "Códigos de error" = true ∧
    (∀ (e : Option (List ℚ)) (s : Option (List SimMatch)), query_pinecone false e s = none) ∧
    (∀ s : Option (List SimMatch), query_pinecone indexReady none s = none) := by
  refine ⟨?_, by decide, by decide, by decide, ?_, ?_⟩
  · rcases hnone with h | h <;> simp [chat, hmsg, hgreet, h]
  · intro e s; simp [query_pinecone]
  · cases indexReady <;> simp [query_pinecone]

/-- Witness for C6 at a concrete input: a failing remote search on a
technical question yields the fixed template. -/
theorem chat_no_data_template_witness :
    chat "problema desconocido" true (some [mkRat 1 2]) none = .ok chatNoDataResponse ∧
    strContains chatNoDataResponse "- ¿Qué síntomas específicos observas?" = true ∧
    strContains chatNoDataResponse "- ¿Cuándo comenzó el problema?" = true ∧
    strContains chatNoDataResponse "Códigos de error" = true ∧
    (∀ (e : Option (List ℚ)) (s : Option (List SimMatch)), query_pinecone false e s = none) ∧
    (∀ s : Option (List SimMatch), query_pinecone true none s = none) :=
  chat_no_data_template "problema desconocido" true (some [mkRat 1 2]) none
    (by decide) (by decide) (Or.inl (by decide))

/-- C7.  `speak_text` attempts the synthesis tiers in the strict order
generative, neural, standard, each at most once, advancing only past a
failed tier; on the first success it returns audio tagged with the engine of
that tier, and when tiers 1 and 2 fail with service errors and tier 3
succeeds, exactly three attempts happen and the result is tagged with the
third tier's engine. -/
theorem speak_tier_ordering (text audio e1 e2 : String) (o1 o2 o3 : TierOutcome)
    (htext : text ≠ "") :
    ((speak_text true text o1 o2 o3).attempts = [1] ∨
     (speak_text true text o1 o2 o3).attempts = [1, 2] ∨
     (speak_text true text o1 o2 o3).attempts = [1, 2, 3]) ∧
    speak_text true text (.success audio) o2 o3 = ⟨.ok (audioReply audio "generative"), [1]⟩ ∧
    speak_text true text (.serviceError e1) (.success audio) o3 =
      ⟨.ok (audioReply audio "neural"), [1, 2]⟩ ∧
    speak_text true text (.serviceError e1) (.serviceError e2) (.success audio) =
      ⟨.ok (audioReply audio "standard"), [1, 2, 3]⟩ ∧
    (speak_text true text (.otherError e1) o2 o3).attempts = [1] := by
  refine ⟨?_, ?_, ?_, ?_, ?_⟩
  · cases o1 <;> cases o2 <;> cases o3 <;> simp [speak_text, htext]
  · simp [speak_text, htext]
  · simp [speak_text, htext]
  · simp [speak_text, htext]
  · cases o2 <;> cases o3 <;> simp [speak_text, htext]

/-- Witness for C7 at a concrete input: tiers 1 and 2 fail, tier 3 succeeds,
three attempts, result tagged with the standard (third-tier) engine. -/
theorem speak_tier_ordering_witness :
    speak_text true "hola" (.serviceError "uno") (.serviceError "dos") (.success "AUDIO") =
      ⟨.ok (audioReply "AUDIO" "standard"), [1, 2, 3]⟩ :=
  (speak_tier_ordering "hola" "AUDIO" "uno" "dos" (.success "x") (.success "x") (.success "x")
    (by decide)).2.2.2.1

/-- C8 (amended).  With speech credentials absent, `speak_text` returns the
client-side (browser) fallback before any tier is attempted, carrying the
original text and no error; when all three tiers fail it returns the
client-side fallback carrying the original text and the error of the second
(neural) tier — not the last error observed. -/
theorem speak_client_fallback (text e1 e2 e3 : String) (o1 o2 o3 : TierOutcome)
    (htext : text ≠ "") :
    speak_text false text o1 o2 o3 = ⟨.ok (browserFallbackReply text none), []⟩ ∧
    speak_text true text (.serviceError e1) (.serviceError e2) (.serviceError e3) =
      ⟨.ok (browserFallbackReply text (some e2)), [1, 2, 3]⟩ ∧
    speak_text true text (.serviceError e1) (.serviceError e2) (.otherError e3) =
      ⟨.ok (browserFallbackReply text (some e2)), [1, 2, 3]⟩ := by
  refine ⟨?_, ?_, ?_⟩ <;> simp [speak_text, htext]

/-- Witness for C8 at a concrete input: absent credentials produce the
browser fallback with the original text and no error, with zero attempts. -/
theorem speak_client_fallback_witness :
    speak_text false "texto" (.success "a") (.success "a") (.success "a") =
      ⟨.ok (browserFallbackReply "texto" none), []⟩ :=
  (speak_client_fallback "texto" "x" "y" "z" (.success "a") (.success "a") (.success "a")
    (by decide)).1

/-- Counterexample to C8 as stated: when the three tiers fail with errors
"uno", "dos", "tres", the fallback reply carries the tier-2 error "dos",
not the last error observed ("tres"). -/
theorem speak_client_fallback_counterexample :
    speak_text true "hola" (.serviceError "uno") (.serviceError "dos") (.serviceError "tres") =
      ⟨.ok (browserFallbackReply "hola" (some "dos")), [1, 2, 3]⟩ ∧
    ¬ (browserFallbackReply "hola" (some "dos")).error = some "tres" := by decide

/-- C9 (amended).  Tier-1 and tier-2 failures are caught narrowly: only a
service error advances the chain, while any other exception aborts it (no
further tier is attempted) and reaches the function boundary, which answers
with the browser-fallback shape carrying that exception's message.  Tier 3,
however, is caught broadly: any exception there — service error or not —
returns the client-side fallback carrying the tier-2 error. -/
theorem speak_narrow_catch (text e f e2 : String) (o2 o3 : TierOutcome)
    (htext : text ≠ "") :
    speak_text true text (.otherError e) o2 o3 =
      ⟨.ok (browserFallbackReply text (some e)), [1]⟩ ∧
    speak_text true text (.serviceError e) (.otherError f) o3 =
      ⟨.ok (browserFallbackReply text (some f)), [1, 2]⟩ ∧
    speak_text true text (.serviceError e) (.serviceError e2) (.otherError f) =
      ⟨.ok (browserFallbackReply text (some e2)), [1, 2, 3]⟩ := by
  refine ⟨?_, ?_, ?_⟩ <;> simp [speak_text, htext]

/-- Witness for C9 at a concrete input: a non-service exception during tier 1
stops the chain after one attempt and surfaces that error in the
fallback-shaped reply. -/
theorem speak_narrow_catch_witness :
    speak_text true "texto dos" (.otherError "boom") (.success "a") (.success "a") =
      ⟨.ok (browserFallbackReply "texto dos" (some "boom")), [1]⟩ :=
  (speak_narrow_catch "texto dos" "boom" "f" "e" (.success "a") (.success "a") (by decide)).1

/-- Counterexample to C9 as stated: a non-service exception during tier 3 is
swallowed by a broad catch and produces the client-side fallback (tagged with
the tier-2 error, not the unexpected one), rather than propagating as an
unexpected-error signal. -/
theorem speak_narrow_catch_counterexample :
    speak_text true "hola mundo" (.serviceError "uno") (.serviceError "dos")
        (.otherError "inesperado") =
      ⟨.ok (browserFallbackReply "hola mundo" (some "dos")), [1, 2, 3]⟩ ∧
    (browserFallbackReply "hola mundo" (some "dos")).useBrowserTTS = true ∧
    ¬ (browserFallbackReply "hola mundo" (some "dos")).error = some "inesperado" := by decide

/-- C10.  When at least one match passes the 0.70 gate but no gate-passing
match carries a `text` metadata field, `generate_response` still returns the
category-template response rendered from the empty context, whose extracted
information lists are all empty. -/
theorem textless_matches_skipped (q : String) (ms : List SimMatch) (m : SimMatch)
    (rest : List SimMatch)
    (hfilter : ms.filter passesGate = m :: rest)
    (hnotext : ∀ x ∈ ms.filter passesGate, matchText x = none) :
    generate_response q ms = generate_mechanical_response q "" m.score ∧
    extract_technical_info "" = emptyTechnicalData := by
  constructor
  · have hne : ms.isEmpty = false := by
      cases ms with
      | nil => simp at hfilter
      | cons a l => rfl
    have hparts : ((m :: rest).take 3).filterMap matchText = [] := by
      rw [List.filterMap_eq_nil_iff]
      intro x hx
      apply hnotext
      rw [hfilter]
      exact List.take_subset _ _ hx
    simp only [generate_response, hne, Bool.false_eq_true, if_false, hfilter, hparts]
    rfl
  · decide

/-- Witness for C10 at a concrete input: a single 0.90-score match whose
metadata lacks a `text` field yields the empty-context category response. -/
theorem textless_matches_skipped_witness :
    generate_response "algo raro" [⟨"id1", mkRat 9 10, some [("source", "manual")]⟩] =
      generate_mechanical_response "algo raro" "" (mkRat 9 10) ∧
    extract_technical_info "" = emptyTechnicalData :=
  textless_matches_skipped "algo raro" [⟨"id1", mkRat 9 10, some [("source", "manual")]⟩]
    ⟨"id1", mkRat 9 10, some [("source", "manual")]⟩ [] (by decide) (by decide)



